import Mathlib

/-!
# Verification of the SDVGame outcome and economy engine

Shallow embedding of the deterministic core of the repository:
the Mulberry32 random sources (`src/Rng.ts` and the math-variant
`src/math/Rng.ts`), the card-draw outcome controller
(`src/OutcomeController.ts`), the round economies (`src/Economy.ts` and the
swipe-variant economy), the ladder survival table and failure pre-sampler
(`src/Rng.ts`, ladder part), the slot probability controller
(`src/math/ProbabilityController.ts`), the slot outcome picker
(`src/math/OutcomeController.ts`) and the grid builder with its payline
evaluator (`src/game/GridBuilder.ts`).

Machine numbers are modelled exactly: 32-bit integer arithmetic as natural
numbers reduced modulo 2^32, JavaScript doubles that arise from exact
decimal constants and their products as rational numbers.
-/

namespace SDV

/-! ## 32-bit helpers and the two Mulberry32 variants -/

/-- 2^32, the modulus of all 32-bit wrapping arithmetic. -/
def U32 : Nat := 4294967296

/-- `Math.imul` on unsigned 32-bit representatives: multiply and wrap. -/
def imul32 (a b : Nat) : Nat := a * b % U32

/--
One step of the `src/Rng.ts` generator (`Rng.next`):
`s = (s + 0x6d2b79f5) >>> 0`,
`t = imul(s ^ (s >>> 15), 1 | s)`,
`t = (t + imul(t ^ (t >>> 7), 61 | t)) >>> 0`,
output numerator `(t ^ (t >>> 14)) >>> 0`, next state `s`.
Returns (output numerator, new state); the float is numerator / 2^32.
-/
def mainNext (s : Nat) : Nat × Nat :=
  let s1 := (s + 0x6d2b79f5) % U32
  let t1 := imul32 (Nat.xor s1 (s1 >>> 15)) (Nat.lor 1 s1)
  let t2 := (t1 + imul32 (Nat.xor t1 (t1 >>> 7)) (Nat.lor 61 t1)) % U32
  (Nat.xor t2 (t2 >>> 14), s1)

/--
One step of the `src/math/Rng.ts` generator (`Rng.nextFloat`):
`z = (state += 0x6d2b79f5) >>> 0`,
`z = imul(z ^ (z >>> 15), z | 1)`,
`z ^= z + imul(z ^ (z >>> 7), z | 61)`,
output numerator `(z ^ (z >>> 14)) >>> 0`, next state is the incremented state.
-/
def mathNext (s : Nat) : Nat × Nat :=
  let s1 := (s + 0x6d2b79f5) % U32
  let z1 := imul32 (Nat.xor s1 (s1 >>> 15)) (Nat.lor s1 1)
  let z2 := Nat.xor z1 ((z1 + imul32 (Nat.xor z1 (z1 >>> 7)) (Nat.lor z1 61)) % U32)
  (Nat.xor z2 (z2 >>> 14), s1)

/--
`src/Rng.ts` constructor: `this.s = (seed >>> 0) || 1` — coerce the seed to an
unsigned 32-bit integer and replace a zero result by 1.
-/
def mainRngInit (seed : Int) : Nat :=
  let u := (seed % (U32 : Int)).toNat
  if u = 0 then 1 else u

/--
`src/math/Rng.ts` constructor: `this.state = (seed | 0) >>> 0` — coerce the
seed to an unsigned 32-bit integer (no non-zero coercion).
-/
def mathRngInit (seed : Int) : Nat := (seed % (U32 : Int)).toNat

/-- `Rng.next()` of `src/Rng.ts` as an exact rational in [0, 1). -/
def mainNextFloat (s : Nat) : ℚ × Nat := (((mainNext s).1 : ℚ) / (U32 : ℚ), (mainNext s).2)

/-- `Rng.nextFloat()` of `src/math/Rng.ts` as an exact rational in [0, 1). -/
def mathNextFloat (s : Nat) : ℚ × Nat := (((mathNext s).1 : ℚ) / (U32 : ℚ), (mathNext s).2)

/--
`Rng.nextInt(max)` of `src/math/Rng.ts`: `Math.floor(nextFloat() * max)`.
For an output numerator `t < 2^32` and natural `max`, the floor equals
`t * max / 2^32` in natural division (the double products involved are exact).
-/
def mathNextInt (s : Nat) (max : ℕ) : ℕ × Nat :=
  ((mathNext s).1 * max / U32, (mathNext s).2)

/-- First `n` outputs of the `src/Rng.ts` generator from state `s`. -/
def mainDrawSeq (s : Nat) : ℕ → List ℚ
  | 0 => []
  | n + 1 => ((mainNext s).1 : ℚ) / (U32 : ℚ) :: mainDrawSeq (mainNext s).2 n

/-- First `n` outputs of the `src/math/Rng.ts` generator from state `s`. -/
def mathDrawSeq (s : Nat) : ℕ → List ℚ
  | 0 => []
  | n + 1 => ((mathNext s).1 : ℚ) / (U32 : ℚ) :: mathDrawSeq (mathNext s).2 n

/-! ## Card-draw probability constants (`src/OutcomeController.ts`, both variants,
`src/Economy.ts`, and the swipe-variant economy constants) -/

/-- `OutcomeController.BOMB_PROB = 0.15` (identical in both variants). -/
def BOMB_PROB : ℚ := 15 / 100

/-- Variant-A `OutcomeController.VIRAL_BOOST_PROB_GIVEN_SAFE = 0.0196`. -/
def VIRAL_BOOST_PROB_A : ℚ := 196 / 10000

/-- Variant-A viral-boost multiplier `VIRAL_BOOST_MULT = 2.0` (swipe economy). -/
def VIRAL_BOOST_MULT_A : ℚ := 2

/-- Variant-A normal multiplier `MULT_PER_SWIPE = 1.1` (swipe economy). -/
def MULT_PER_SWIPE : ℚ := 11 / 10

/-- Variant-B `OutcomeController.VIRAL_BOOST_PROB_GIVEN_SAFE = 0.003`. -/
def VIRAL_BOOST_PROB_B : ℚ := 3 / 1000

/-- Variant-B `VIRAL_BOOST_MULT = 10.0` (`src/Economy.ts`). -/
def VIRAL_BOOST_MULT_B : ℚ := 10

/-- Variant-B `NORMAL_SAFE_MULT = 1.1499` (`src/Economy.ts`). -/
def NORMAL_SAFE_MULT : ℚ := 11499 / 10000

/--
The depth-invariance expression of the spec:
`(1 − dangerProb) × (q × bonusMult + (1 − q) × normalMult)`.
-/
def depthIdentity (danger q bMult nMult : ℚ) : ℚ :=
  (1 - danger) * (q * bMult + (1 - q) * nMult)

/-! ## Round economy, main variant (`src/Economy.ts`) -/

/-- `HOUSE_EDGE = 0.95`. -/
def HOUSE_EDGE : ℚ := 95 / 100

/-- `MAX_MULT = 500`. -/
def MAX_MULT : ℚ := 500

/-- State of the `Economy` class of `src/Economy.ts`. -/
structure Economy where
  balance : ℚ
  roundValue : ℚ
  cardCount : ℕ
  bet : ℚ

/-- `get canStartRound(): boolean { return this.balance >= this.bet; }` -/
def Economy.canStartRound (e : Economy) : Bool := e.bet ≤ e.balance

/-- `startRound()`: deduct the bet, seed `roundValue = bet × HOUSE_EDGE`. -/
def Economy.startRound (e : Economy) : Economy :=
  { e with balance := e.balance - e.bet
           roundValue := e.bet * HOUSE_EDGE
           cardCount := 0 }

/--
`onSafeCard(multiplierOverride?)`: multiply `roundValue` by the override or
`NORMAL_SAFE_MULT` and clamp at `bet × MAX_MULT`.
-/
def Economy.onSafeCard (e : Economy) (mo : Option ℚ) : Economy :=
  let mult := mo.getD NORMAL_SAFE_MULT
  { e with roundValue := min (e.roundValue * mult) (e.bet * MAX_MULT)
           cardCount := e.cardCount + 1 }

/-- `cashout()`: credit `roundValue` to balance, return it, reset the ledger. -/
def Economy.cashout (e : Economy) : ℚ × Economy :=
  (e.roundValue,
   { e with balance := e.balance + e.roundValue
            roundValue := 0
            cardCount := 0 })

/-- `onBomb()`: the round value is forfeited, balance untouched. -/
def Economy.onBomb (e : Economy) : Economy :=
  { e with roundValue := 0, cardCount := 0 }

/-! ## Round economy, swipe variant (unnamed part 004) -/

/-- Swipe-variant `SWIPE_COST = 10`. -/
def SWIPE_COST : ℚ := 10

/-- State of the swipe-variant `Economy` class. -/
structure EconomySwipe where
  balance : ℚ
  roundValue : ℚ
  cardCount : ℕ

/-- Swipe-variant `canStartRound`: `balance >= SWIPE_COST`. -/
def EconomySwipe.canStartRound (e : EconomySwipe) : Bool := SWIPE_COST ≤ e.balance

/-- Swipe-variant `startRound()`: deduct `SWIPE_COST`, set `roundValue = SWIPE_COST`. -/
def EconomySwipe.startRound (e : EconomySwipe) : EconomySwipe :=
  { e with balance := e.balance - SWIPE_COST
           roundValue := SWIPE_COST
           cardCount := 0 }

/-- Swipe-variant `onSafeCard(multiplierOverride?)` (no clamp in this variant). -/
def EconomySwipe.onSafeCard (e : EconomySwipe) (mo : Option ℚ) : EconomySwipe :=
  { e with roundValue := e.roundValue * mo.getD MULT_PER_SWIPE
           cardCount := e.cardCount + 1 }

/-! ## Ladder survival table and failure pre-sampler (`src/Rng.ts`, ladder part) -/

/-- `RTP_TARGET = 0.95`. -/
def RTP_TARGET : ℚ := 95 / 100

/-- `MAX_LEVEL = 22`. -/
def MAX_LEVEL : ℕ := 22

/-- `CASHOUT_MULTIPLIERS` (index 0 unused), 23 entries. -/
def CASHOUT_MULTIPLIERS : List ℚ :=
  [0, 9/10, 1, 136/100, 186/100, 5/2, 7/2, 47/10, 65/10, 88/10,
   12, 165/10, 225/10, 305/10, 415/10, 57, 77, 106, 144, 196, 270, 365, 500]

/--
`SURVIVAL_PROBS`: an array of length `MAX_LEVEL + 1` initially all 0, with
`probs[1] = RTP_TARGET / C[2]` and `probs[k] = C[k] / C[k+1]` for
`k = 2 .. MAX_LEVEL − 1`, exactly as the construction loop in `src/Rng.ts`.
-/
def SURVIVAL_PROBS : List ℚ :=
  (List.range (MAX_LEVEL + 1)).map fun k =>
    if k = 1 then RTP_TARGET / CASHOUT_MULTIPLIERS.getD 2 0
    else if 2 ≤ k ∧ k ≤ MAX_LEVEL - 1 then
      CASHOUT_MULTIPLIERS.getD k 0 / CASHOUT_MULTIPLIERS.getD (k + 1) 0
    else 0

/-- The survival probability consulted at level `k`. -/
def survivalProb (k : ℕ) : ℚ := SURVIVAL_PROBS.getD k 0

/--
The loop body of `sampleFailAtLike`: starting at `level`, with `fuel` levels
left to scan, draw one boolean per level (`rng.nextBool(SURVIVAL_PROBS[level])`,
i.e. `next() < prob`) and return the first level whose draw fails; `none`
models the `Infinity` returned when every remaining draw succeeds.
-/
def sampleGo (s : Nat) (level : ℕ) : ℕ → Option ℕ
  | 0 => none
  | fuel + 1 =>
    if ((mainNext s).1 : ℚ) / (U32 : ℚ) < survivalProb level then
      sampleGo (mainNext s).2 (level + 1) fuel
    else some level

/--
`sampleFailAtLike(rng)`: scan levels `1 .. MAX_LEVEL − 1 = 21` in order;
`none` stands for the source's `Infinity`.
-/
def sampleFailAtLike (s : Nat) : Option ℕ := sampleGo s 1 (MAX_LEVEL - 1)

/-- The generator state after `n` draws of the `src/Rng.ts` generator. -/
def stateAfter (s : Nat) (n : ℕ) : Nat := (fun t => (mainNext t).2)^[n] s

/-- The `i`-th draw (0-based) from state `s`, as an exact rational in [0, 1). -/
def drawAt (s : Nat) (i : ℕ) : ℚ := ((mainNext (stateAfter s i)).1 : ℚ) / (U32 : ℚ)

/-! ## Slot types (`src/types.ts`) -/

/-- `Volatility = 'LOW' | 'MED' | 'HIGH'`. -/
inductive Volatility
  | LOW
  | MED
  | HIGH
deriving DecidableEq, Repr

/-- `WinKind = 'LOSE' | 'MATCH_3' | 'MATCH_4'`. -/
inductive WinKind
  | LOSE
  | MATCH_3
  | MATCH_4
deriving DecidableEq, Repr

/-- `SlotConfig` (the TS type constrains rows, cols to 3 | 4, symbolsCount to 10,
targetRtp to 0.95; these constraints are carried as hypotheses). -/
structure SlotConfig where
  rows : ℕ
  cols : ℕ
  symbolsCount : ℕ
  targetRtp : ℚ
  volatility : Volatility

/-- `Outcome`. -/
structure Outcome where
  winKind : WinKind
  symbolId : Option ℕ
  payoutMult : ℚ
  paylineRow : ℕ

/-! ## Probability controller (`src/math/ProbabilityController.ts`) -/

/-- One volatility profile of `BASE_PROFILES`. -/
structure BaseProfile where
  hitRate : ℚ
  match4Share : ℚ
  tierMultipliers : List ℚ
  tierWeights : List ℚ

/-- `BASE_PROFILES`. -/
def BASE_PROFILES : Volatility → BaseProfile
  | .LOW => ⟨55/100, 12/100, [1, 12/10, 15/10, 2, 3, 5], [40, 25, 18, 10, 5, 2]⟩
  | .MED => ⟨35/100, 25/100, [1, 15/10, 2, 3, 5, 8, 12], [28, 22, 18, 13, 10, 6, 3]⟩
  | .HIGH => ⟨20/100, 40/100, [12/10, 2, 4, 8, 15, 30, 60], [22, 18, 16, 14, 12, 10, 8]⟩

/-- The fields computed by the `ProbabilityController` constructor. -/
structure ProbCtrl where
  pWin : ℚ
  pLose : ℚ
  pMatch3 : ℚ
  pMatch4 : ℚ
  weights : List ℚ
  normalizedMults : List ℚ

/--
`new ProbabilityController(config)`: hit rates, the MATCH_4 share when
`cols = 4`, and the uniform scale that normalizes the tier multipliers so
that `pWin × avgNormalizedMult = targetRtp`.
-/
def mkProbCtrl (config : SlotConfig) : ProbCtrl :=
  let base := BASE_PROFILES config.volatility
  let pWin := base.hitRate
  let pMatch4 := if config.cols = 4 then pWin * base.match4Share else 0
  let pMatch3 := if config.cols = 4 then pWin - pMatch4 else pWin
  let totalWeight := base.tierWeights.sum
  let avgBaseMult :=
    ((base.tierMultipliers.zip base.tierWeights).map fun p => p.1 * p.2).sum / totalWeight
  let scale := config.targetRtp / (pWin * avgBaseMult)
  ⟨pWin, 1 - pWin, pMatch3, pMatch4, base.tierWeights,
   base.tierMultipliers.map fun m => m * scale⟩

/--
The cumulative-weight scan of `pickTierMult`: subtract weights from `r` in
order and return the multiplier at the first index where `r` drops below 0;
fall back to the last multiplier.
-/
def tierScan (r : ℚ) : List (ℚ × ℚ) → ℚ → ℚ
  | [], dflt => dflt
  | (w, m) :: rest, dflt => if r - w < 0 then m else tierScan (r - w) rest dflt

/-- `ProbabilityController.pickTierMult(rng)`: one draw scaled to the total
weight, then the linear scan. -/
def pickTierMult (pc : ProbCtrl) (s : Nat) : ℚ × Nat :=
  let total := pc.weights.sum
  (tierScan ((mathNextFloat s).1 * total) (pc.weights.zip pc.normalizedMults)
     (pc.normalizedMults.getD (pc.normalizedMults.length - 1) 0),
   (mathNextFloat s).2)

/-! ## Slot outcome picker (`src/math/OutcomeController.ts`) -/

/--
`OutcomeController.pickOutcome(config, rng, probCtrl)`:
payline row is `floor(rows / 2)`; one draw decides lose vs win; for `cols = 4`
a second draw splits MATCH_4 vs MATCH_3 at `pMatch4 / pWin`; then a tier draw
and a uniform symbol draw.
-/
def pickOutcome (config : SlotConfig) (s : Nat) (pc : ProbCtrl) : Outcome × Nat :=
  let paylineRow := config.rows / 2
  let u1 := (mathNextFloat s).1
  let s1 := (mathNextFloat s).2
  if u1 < pc.pLose then (⟨.LOSE, none, 0, paylineRow⟩, s1)
  else if config.cols = 3 then
    let pm := pickTierMult pc s1
    let sym := mathNextInt pm.2 config.symbolsCount
    (⟨.MATCH_3, some sym.1, pm.1, paylineRow⟩, sym.2)
  else
    let u2 := (mathNextFloat s1).1
    let s2 := (mathNextFloat s1).2
    let wk := if u2 < pc.pMatch4 / pc.pWin then WinKind.MATCH_4 else WinKind.MATCH_3
    let pm := pickTierMult pc s2
    let sym := mathNextInt pm.2 config.symbolsCount
    (⟨wk, some sym.1, pm.1, paylineRow⟩, sym.2)

/-! ## Grid builder and payline evaluator (`src/game/GridBuilder.ts`) -/

/-- A grid is a list of rows of symbol identifiers. -/
abbrev Grid := List (List ℕ)

/--
`evaluatePayline` restricted to the extracted row `r = grid[row]`:
MATCH_4 when `cols = 4` and `r[0..3]` are all equal, else MATCH_3 when
`r[0..2]` are equal, else LOSE.
-/
def rowEval (r : List ℕ) (cols : ℕ) : WinKind :=
  if cols = 4 ∧ r.getD 0 0 = r.getD 1 0 ∧ r.getD 1 0 = r.getD 2 0 ∧
      r.getD 2 0 = r.getD 3 0 then .MATCH_4
  else if r.getD 0 0 = r.getD 1 0 ∧ r.getD 1 0 = r.getD 2 0 then .MATCH_3
  else .LOSE

/-- `evaluatePayline(grid, row, cols)`. -/
def evaluatePayline (g : Grid) (row cols : ℕ) : WinKind :=
  rowEval (g.getD row []) cols

/-- Read cell `grid[r][c]`. -/
def getCell (g : Grid) (r c : ℕ) : ℕ := (g.getD r []).getD c 0

/-- Write cell `grid[r][c] = v`. -/
def setCell (g : Grid) (r c v : ℕ) : Grid := g.set r ((g.getD r []).set c v)

/--
One iteration body of `fixPaylineForLose`: on MATCH_4 bump `col[cols−1]`
cyclically mod 10, otherwise (MATCH_3) bump `col[2]` cyclically mod 10
(the source hardcodes the modulus 10 here).
-/
def fixStep (g : Grid) (row cols : ℕ) : Grid :=
  if evaluatePayline g row cols = .MATCH_4 then
    setCell g row (cols - 1) ((getCell g row (cols - 1) + 1) % 10)
  else
    setCell g row 2 ((getCell g row 2 + 1) % 10)

/-- The bounded repair loop: `while eval ≠ LOSE ∧ iter < 50`. -/
def fixLoop (g : Grid) (row cols : ℕ) : ℕ → Grid
  | 0 => g
  | fuel + 1 =>
    if evaluatePayline g row cols = .LOSE then g
    else fixLoop (fixStep g row cols) row cols fuel

/-- `GridBuilder.fixPaylineForLose` with its iteration cap of 50. -/
def fixPaylineForLose (g : Grid) (row cols : ℕ) : Grid := fixLoop g row cols 50

/-- MATCH_3 enforcement: set cols 0–2 to the symbol; if `cols = 4` and col 3
accidentally matches, rotate it to `(symbolId + 1) % symbolsCount`. -/
def applyMatch3 (g : Grid) (row cols symbolsCount sym : ℕ) : Grid :=
  let g1 := setCell (setCell (setCell g row 0 sym) row 1 sym) row 2 sym
  if cols = 4 ∧ getCell g1 row 3 = sym then
    setCell g1 row 3 ((sym + 1) % symbolsCount)
  else g1

/-- MATCH_4 enforcement: set cols 0–3 to the symbol. -/
def applyMatch4 (g : Grid) (row sym : ℕ) : Grid :=
  setCell (setCell (setCell (setCell g row 0 sym) row 1 sym) row 2 sym) row 3 sym

/-- Random fill of one row of `cols` cells, each `rng.nextInt(symbolsCount)`. -/
def randRow (symbolsCount : ℕ) : Nat → ℕ → List ℕ × Nat
  | s, 0 => ([], s)
  | s, n + 1 =>
    let v := mathNextInt s symbolsCount
    let rest := randRow symbolsCount v.2 n
    (v.1 :: rest.1, rest.2)

/-- Random fill of `rows` rows (row-major, exactly as the source's fill loop). -/
def randGrid (symbolsCount cols : ℕ) : Nat → ℕ → Grid × Nat
  | s, 0 => ([], s)
  | s, n + 1 =>
    let row := randRow symbolsCount s cols
    let rest := randGrid symbolsCount cols row.2 n
    (row.1 :: rest.1, rest.2)

/--
`GridBuilder.buildFinalGrid(config, rng, outcome)`: random fill, outcome
enforcement on the payline row, and the final correctness assertion —
`none` models the thrown `GridBuilder assertion failed` error.
-/
def buildFinalGrid (config : SlotConfig) (s : Nat) (o : Outcome) :
    Option (Grid × Nat) :=
  let gr := randGrid config.symbolsCount config.cols s config.rows
  let g1 :=
    match o.winKind with
    | .LOSE => fixPaylineForLose gr.1 o.paylineRow config.cols
    | .MATCH_3 => applyMatch3 gr.1 o.paylineRow config.cols config.symbolsCount
        (o.symbolId.getD 0)
    | .MATCH_4 => applyMatch4 gr.1 o.paylineRow (o.symbolId.getD 0)
  if evaluatePayline g1 o.paylineRow config.cols = o.winKind then some (g1, gr.2)
  else none

/-! ## Theorems -/

/-! ### Grid-to-row reduction infrastructure

Every grid operation of the builder touches only the payline row, so each
grid-level function is reduced to a row-level counterpart and the payline
property is proved on concretely destructured rows of length 3 or 4. -/

/-- `evaluatePayline` reads only the payline row. -/
lemma evaluatePayline_def (g : Grid) (row cols : ℕ) :
    evaluatePayline g row cols = rowEval (g.getD row []) cols := rfl

/-- Reading back a row just written. -/
lemma set_getD_self (g : Grid) (row : ℕ) (x : List ℕ) (h : row < g.length) :
    (g.set row x).getD row [] = x := by
  rw [List.getD_eq_getElem?_getD, List.getElem?_set_eq_of_lt _ h]
  rfl

/-- `setCell` on the payline row updates exactly that row. -/
lemma setCell_getD (g : Grid) (row c v : ℕ) (h : row < g.length) :
    (setCell g row c v).getD row [] = (g.getD row []).set c v :=
  set_getD_self g row _ h

/-- `setCell` preserves the number of rows. -/
lemma setCell_length (g : Grid) (row c v : ℕ) : (setCell g row c v).length = g.length :=
  List.length_set g row _

/-- Row-level counterpart of `fixStep`. -/
def rowFixStep (r : List ℕ) (cols : ℕ) : List ℕ :=
  if rowEval r cols = .MATCH_4 then r.set (cols - 1) ((r.getD (cols - 1) 0 + 1) % 10)
  else r.set 2 ((r.getD 2 0 + 1) % 10)

/-- Row-level counterpart of `fixLoop`. -/
def rowFixLoop (r : List ℕ) (cols : ℕ) : ℕ → List ℕ
  | 0 => r
  | fuel + 1 => if rowEval r cols = .LOSE then r else rowFixLoop (rowFixStep r cols) cols fuel

/-- Row-level counterpart of `applyMatch3`. -/
def rowApply3 (r : List ℕ) (cols k sym : ℕ) : List ℕ :=
  if cols = 4 ∧ ((((r.set 0 sym).set 1 sym).set 2 sym).getD 3 0) = sym then
    (((r.set 0 sym).set 1 sym).set 2 sym).set 3 ((sym + 1) % k)
  else ((r.set 0 sym).set 1 sym).set 2 sym

/-- Row-level counterpart of `applyMatch4`. -/
def rowApply4 (r : List ℕ) (sym : ℕ) : List ℕ :=
  (((r.set 0 sym).set 1 sym).set 2 sym).set 3 sym

/-- An already-losing row is a fixed point of the repair loop. -/
lemma rowFixLoop_lose (r : List ℕ) (cols fuel : ℕ) (h : rowEval r cols = .LOSE) :
    rowFixLoop r cols fuel = r := by
  cases fuel with
  | zero => rfl
  | succ n => rw [rowFixLoop, if_pos h]

/-- One unfolding of the repair loop on a non-losing row. -/
lemma rowFixLoop_step (r : List ℕ) (cols fuel : ℕ) (h : ¬ rowEval r cols = .LOSE) :
    rowFixLoop r cols (fuel + 1) = rowFixLoop (rowFixStep r cols) cols fuel := by
  rw [rowFixLoop, if_neg h]

/-- `fixStep` reduces to `rowFixStep` on the payline row. -/
lemma fixStep_getD (g : Grid) (row cols : ℕ) (h : row < g.length) :
    (fixStep g row cols).getD row [] = rowFixStep (g.getD row []) cols ∧
      (fixStep g row cols).length = g.length := by
  rw [fixStep, rowFixStep, evaluatePayline_def]
  split_ifs with hcond
  · exact ⟨setCell_getD g row _ _ h, setCell_length g row _ _⟩
  · exact ⟨setCell_getD g row _ _ h, setCell_length g row _ _⟩

/-- `fixLoop` reduces to `rowFixLoop` on the payline row. -/
lemma fixLoop_getD (fuel : ℕ) : ∀ g row cols, row < g.length →
    (fixLoop g row cols fuel).getD row [] = rowFixLoop (g.getD row []) cols fuel ∧
      (fixLoop g row cols fuel).length = g.length := by
  induction fuel with
  | zero => intro g row cols _; exact ⟨rfl, rfl⟩
  | succ n ih =>
    intro g row cols h
    by_cases hl : rowEval (g.getD row []) cols = .LOSE
    · rw [fixLoop, if_pos (by rw [evaluatePayline_def]; exact hl),
        rowFixLoop, if_pos hl]
      exact ⟨rfl, rfl⟩
    · rw [fixLoop, if_neg (by rw [evaluatePayline_def]; exact hl),
        rowFixLoop, if_neg hl]
      have hs := fixStep_getD g row cols h
      have hlen : row < (fixStep g row cols).length := by rw [hs.2]; exact h
      obtain ⟨ih1, ih2⟩ := ih (fixStep g row cols) row cols hlen
      rw [ih1, hs.1, ih2, hs.2]
      exact ⟨rfl, rfl⟩

/-- `applyMatch3` reduces to `rowApply3` on the payline row. -/
lemma applyMatch3_getD (g : Grid) (row cols k sym : ℕ) (h : row < g.length) :
    (applyMatch3 g row cols k sym).getD row [] = rowApply3 (g.getD row []) cols k sym ∧
      (applyMatch3 g row cols k sym).length = g.length := by
  have h1 : row < (setCell g row 0 sym).length := by rw [setCell_length]; exact h
  have h2 : row < (setCell (setCell g row 0 sym) row 1 sym).length := by
    rw [setCell_length]; exact h1
  have h3 : row < (setCell (setCell (setCell g row 0 sym) row 1 sym) row 2 sym).length := by
    rw [setCell_length]; exact h2
  have hg1 : (setCell (setCell (setCell g row 0 sym) row 1 sym) row 2 sym).getD row []
      = (((g.getD row []).set 0 sym).set 1 sym).set 2 sym := by
    rw [setCell_getD _ _ _ _ h2, setCell_getD _ _ _ _ h1, setCell_getD _ _ _ _ h]
  rw [applyMatch3, rowApply3]
  simp only [getCell, hg1]
  split_ifs with hcond
  · constructor
    · rw [setCell_getD _ _ _ _ h3, hg1]
    · rw [setCell_length, setCell_length, setCell_length, setCell_length]
  · exact ⟨hg1, by rw [setCell_length, setCell_length, setCell_length]⟩

/-- `applyMatch4` reduces to `rowApply4` on the payline row. -/
lemma applyMatch4_getD (g : Grid) (row sym : ℕ) (h : row < g.length) :
    (applyMatch4 g row sym).getD row [] = rowApply4 (g.getD row []) sym ∧
      (applyMatch4 g row sym).length = g.length := by
  have h1 : row < (setCell g row 0 sym).length := by rw [setCell_length]; exact h
  have h2 : row < (setCell (setCell g row 0 sym) row 1 sym).length := by
    rw [setCell_length]; exact h1
  have h3 : row < (setCell (setCell (setCell g row 0 sym) row 1 sym) row 2 sym).length := by
    rw [setCell_length]; exact h2
  constructor
  · rw [applyMatch4, rowApply4, setCell_getD _ _ _ _ h3, setCell_getD _ _ _ _ h2,
      setCell_getD _ _ _ _ h1, setCell_getD _ _ _ _ h]
  · rw [applyMatch4, setCell_length, setCell_length, setCell_length, setCell_length]

/-- The repair loop on a 3-column row reaches LOSE (at most one nudge is needed). -/
lemma rowEval3_fix (a b c : ℕ) : rowEval (rowFixLoop [a, b, c] 3 50) 3 = .LOSE := by
  by_cases h : a = b ∧ b = c
  · obtain ⟨rfl, rfl⟩ := h
    have he : rowEval [a, a, a] 3 = .MATCH_3 := by simp [rowEval]
    have hstep : rowFixStep [a, a, a] 3 = [a, a, (a + 1) % 10] := by
      rw [rowFixStep, if_neg (by rw [he]; simp)]
      simp
    have hl : rowEval [a, a, (a + 1) % 10] 3 = .LOSE := by
      simp [rowEval]
      omega
    have h50 : (50 : ℕ) = 49 + 1 := by norm_num
    rw [h50, rowFixLoop_step _ _ _ (by rw [he]; simp), hstep,
      rowFixLoop_lose _ _ _ hl]
    exact hl
  · have hl : rowEval [a, b, c] 3 = .LOSE := by
      rw [rowEval, if_neg (by simp), if_neg (by simpa using h)]
    rw [rowFixLoop_lose _ _ _ hl]
    exact hl

/-- The repair loop on a 4-column row reaches LOSE (at most two nudges are needed). -/
lemma rowEval4_fix (a b c d : ℕ) : rowEval (rowFixLoop [a, b, c, d] 4 50) 4 = .LOSE := by
  by_cases h4 : a = b ∧ b = c ∧ c = d
  · obtain ⟨rfl, rfl, rfl⟩ := h4
    have he : rowEval [a, a, a, a] 4 = .MATCH_4 := by simp [rowEval]
    have hstep : rowFixStep [a, a, a, a] 4 = [a, a, a, (a + 1) % 10] := by
      rw [rowFixStep, if_pos he]
      simp
    have he2 : rowEval [a, a, a, (a + 1) % 10] 4 = .MATCH_3 := by
      rw [rowEval, if_neg (by simp; omega), if_pos (by simp)]
    have hstep2 : rowFixStep [a, a, a, (a + 1) % 10] 4
        = [a, a, (a + 1) % 10, (a + 1) % 10] := by
      rw [rowFixStep, if_neg (by rw [he2]; simp)]
      simp
    have hl : rowEval [a, a, (a + 1) % 10, (a + 1) % 10] 4 = .LOSE := by
      rw [rowEval, if_neg (by simp; omega), if_neg (by simp; omega)]
    have h50 : (50 : ℕ) = 49 + 1 := by norm_num
    have h49 : (49 : ℕ) = 48 + 1 := by norm_num
    rw [h50, rowFixLoop_step _ _ _ (by rw [he]; simp), hstep,
      h49, rowFixLoop_step _ _ _ (by rw [he2]; simp), hstep2,
      rowFixLoop_lose _ _ _ hl]
    exact hl
  · by_cases h3 : a = b ∧ b = c
    · obtain ⟨rfl, rfl⟩ := h3
      have hd : ¬ a = d := fun hc => h4 ⟨rfl, rfl, hc⟩
      have he : rowEval [a, a, a, d] 4 = .MATCH_3 := by
        rw [rowEval, if_neg (by simpa using hd), if_pos (by simp)]
      have hstep : rowFixStep [a, a, a, d] 4 = [a, a, (a + 1) % 10, d] := by
        rw [rowFixStep, if_neg (by rw [he]; simp)]
        simp
      have hl : rowEval [a, a, (a + 1) % 10, d] 4 = .LOSE := by
        rw [rowEval, if_neg (by simp; omega), if_neg (by simp; omega)]
      have h50 : (50 : ℕ) = 49 + 1 := by norm_num
      rw [h50, rowFixLoop_step _ _ _ (by rw [he]; simp), hstep,
        rowFixLoop_lose _ _ _ hl]
      exact hl
    · have hl : rowEval [a, b, c, d] 4 = .LOSE := by
        rw [rowEval, if_neg (fun hc => h3 ⟨hc.2.1, hc.2.2.1⟩),
          if_neg (by simpa using h3)]
      rw [rowFixLoop_lose _ _ _ hl]
      exact hl

/-- MATCH_3 enforcement on a 3-column row evaluates to MATCH_3. -/
lemma rowApply3_eval_c3 (a b c sym : ℕ) :
    rowEval (rowApply3 [a, b, c] 3 10 sym) 3 = .MATCH_3 := by
  rw [rowApply3, if_neg (by simp)]
  simp [rowEval]

/-- MATCH_3 enforcement on a 4-column row evaluates to MATCH_3 (the fourth
column is rotated away from the symbol when it would create a MATCH_4). -/
lemma rowApply3_eval_c4 (a b c d sym : ℕ) :
    rowEval (rowApply3 [a, b, c, d] 4 10 sym) 4 = .MATCH_3 := by
  by_cases hd : d = sym
  · rw [rowApply3, if_pos (by simp [hd])]
    rw [show ((([a, b, c, d].set 0 sym).set 1 sym).set 2 sym).set 3 ((sym + 1) % 10)
        = [sym, sym, sym, (sym + 1) % 10] by simp]
    rw [rowEval, if_neg (by simp; omega), if_pos (by simp)]
  · rw [rowApply3, if_neg (by simp [hd])]
    rw [show (([a, b, c, d].set 0 sym).set 1 sym).set 2 sym = [sym, sym, sym, d] by simp]
    rw [rowEval, if_neg (by simp; omega), if_pos (by simp)]

/-- MATCH_4 enforcement on a 4-column row evaluates to MATCH_4. -/
lemma rowApply4_eval (a b c d sym : ℕ) :
    rowEval (rowApply4 [a, b, c, d] sym) 4 = .MATCH_4 := by
  rw [rowApply4]
  rw [show ((([a, b, c, d].set 0 sym).set 1 sym).set 2 sym).set 3 sym
      = [sym, sym, sym, sym] by simp]
  simp [rowEval]

/-- A list of length 4 is a literal 4-element list. -/
lemma length_eq_four {l : List ℕ} : l.length = 4 ↔ ∃ a b c d, l = [a, b, c, d] := by
  constructor
  · intro h
    cases l with
    | nil => simp at h
    | cons x tl =>
      have h3 : tl.length = 3 := by simpa using h
      obtain ⟨a, b, c, rfl⟩ := List.length_eq_three.mp h3
      exact ⟨x, a, b, c, rfl⟩
  · rintro ⟨a, b, c, d, rfl⟩
    rfl

/-- A random row has the requested width. -/
lemma randRow_length (k : ℕ) : ∀ s n, (randRow k s n).1.length = n := by
  intro s n
  induction n generalizing s with
  | zero => rfl
  | succ m ih => rw [randRow]; simpa using ih _

/-- A random grid has the requested number of rows. -/
lemma randGrid_length (k c : ℕ) : ∀ s n, (randGrid k c s n).1.length = n := by
  intro s n
  induction n generalizing s with
  | zero => rfl
  | succ m ih => rw [randGrid]; simpa using ih _

/-- Every row of a random grid has the requested width. -/
lemma randGrid_rows (k c : ℕ) : ∀ s n, ∀ r ∈ (randGrid k c s n).1, r.length = c := by
  intro s n
  induction n generalizing s with
  | zero => intro r hr; simp [randGrid] at hr
  | succ m ih =>
    intro r hr
    rw [randGrid] at hr
    simp at hr
    rcases hr with rfl | hr
    · exact randRow_length k s c
    · exact ih _ r hr

/-- An in-range `getD` is a member of the list. -/
lemma getD_mem (g : Grid) (row : ℕ) (h : row < g.length) : g.getD row [] ∈ g := by
  rw [List.getD_eq_getElem?_getD, List.getElem?_eq_getElem h]
  exact List.getElem_mem h

/-- Indexing a mapped range at an in-range position yields the mapped value. -/
lemma getD_range_map (f : ℕ → ℚ) (n k : ℕ) (hk : k < n) :
    ((List.range n).map f).getD k 0 = f k := by
  rw [List.getD_eq_getElem?_getD]
  simp [List.getElem?_map, List.getElem?_range hk]

/-- `onSafeCard` never touches the balance, over any list of steps. -/
lemma foldl_onSafeCard_balance (steps : List (Option ℚ)) (e : Economy) :
    (steps.foldl (fun a m => a.onSafeCard m) e).balance = e.balance := by
  induction steps generalizing e with
  | nil => rfl
  | cons hd tl ih => simpa [Economy.onSafeCard] using ih _

/--
For every outcome whose invariants hold (payline row in range, MATCH_4 only
with 4 columns), `buildFinalGrid` returns a grid (the final assertion cannot
fire) whose payline evaluates to exactly the outcome's win kind.
-/
lemma buildFinalGrid_ok (config : SlotConfig) (s : Nat) (o : Outcome)
    (h10 : config.symbolsCount = 10)
    (hc : config.cols = 3 ∨ config.cols = 4)
    (hrow : o.paylineRow < config.rows)
    (h4 : o.winKind = .MATCH_4 → config.cols = 4) :
    ∃ gOut s2, buildFinalGrid config s o = some (gOut, s2) ∧
      evaluatePayline gOut o.paylineRow config.cols = o.winKind := by
  obtain ⟨rows, cols, sc, rtp, v⟩ := config
  obtain ⟨wk, symId, pm, prow⟩ := o
  simp only at hrow h4 hc h10 ⊢
  subst h10
  have hlen : (randGrid 10 cols s rows).1.length = rows := randGrid_length _ _ _ _
  have hrow' : prow < (randGrid 10 cols s rows).1.length := by
    rw [hlen]; exact hrow
  have hrl : ((randGrid 10 cols s rows).1.getD prow []).length = cols :=
    randGrid_rows _ _ _ _ _ (getD_mem _ _ hrow')
  cases wk with
  | LOSE =>
    have heval : evaluatePayline
        (fixPaylineForLose (randGrid 10 cols s rows).1 prow cols) prow cols = .LOSE := by
      rw [evaluatePayline_def, fixPaylineForLose, (fixLoop_getD 50 _ _ _ hrow').1]
      rcases hc with rfl | rfl
      · obtain ⟨a, b, c, hr⟩ := List.length_eq_three.mp hrl
        rw [hr]
        exact rowEval3_fix a b c
      · obtain ⟨a, b, c, d, hr⟩ := length_eq_four.mp hrl
        rw [hr]
        exact rowEval4_fix a b c d
    refine ⟨_, (randGrid 10 cols s rows).2, ?_, heval⟩
    rw [buildFinalGrid]
    simp only
    rw [if_pos heval]
  | MATCH_3 =>
    have heval : evaluatePayline
        (applyMatch3 (randGrid 10 cols s rows).1 prow cols 10 (symId.getD 0)) prow cols
        = .MATCH_3 := by
      rw [evaluatePayline_def, (applyMatch3_getD _ _ _ _ _ hrow').1]
      rcases hc with rfl | rfl
      · obtain ⟨a, b, c, hr⟩ := List.length_eq_three.mp hrl
        rw [hr]
        exact rowApply3_eval_c3 a b c _
      · obtain ⟨a, b, c, d, hr⟩ := length_eq_four.mp hrl
        rw [hr]
        exact rowApply3_eval_c4 a b c d _
    refine ⟨_, (randGrid 10 cols s rows).2, ?_, heval⟩
    rw [buildFinalGrid]
    simp only
    rw [if_pos heval]
  | MATCH_4 =>
    have hc4 : cols = 4 := h4 rfl
    subst hc4
    have heval : evaluatePayline
        (applyMatch4 (randGrid 10 4 s rows).1 prow (symId.getD 0)) prow 4 = .MATCH_4 := by
      rw [evaluatePayline_def, (applyMatch4_getD _ _ _ hrow').1]
      obtain ⟨a, b, c, d, hr⟩ := length_eq_four.mp hrl
      rw [hr]
      exact rowApply4_eval a b c d _
    refine ⟨_, (randGrid 10 4 s rows).2, ?_, heval⟩
    rw [buildFinalGrid]
    simp only
    rw [if_pos heval]

/--
`pickOutcome` always places the payline in range and only emits MATCH_4 when
the configuration has more than 3 columns.
-/
lemma pickOutcome_inv (config : SlotConfig) (s : Nat) (pc : ProbCtrl)
    (hr : 0 < config.rows) :
    (pickOutcome config s pc).1.paylineRow < config.rows ∧
      ((pickOutcome config s pc).1.winKind = .MATCH_4 → config.cols ≠ 3) := by
  have hdiv : config.rows / 2 < config.rows := Nat.div_lt_self hr one_lt_two
  rw [pickOutcome]
  split_ifs with h1 h2
  · exact ⟨hdiv, by intro h; cases h⟩
  · exact ⟨hdiv, by intro h; cases h⟩
  · exact ⟨hdiv, fun _ => h2⟩

/--
C1: for every `SlotConfig` with 10 symbols, 3 or 4 columns and at least one
row, every outcome produced by `pickOutcome` under the configuration's
`ProbabilityController`, and every generator state, `buildFinalGrid` returns
a grid without its assertion error firing, and `evaluatePayline` on the
outcome's payline row equals the outcome's win kind.
-/
theorem C1_grid_matches_outcome (config : SlotConfig) (s0 sg : Nat)
    (h10 : config.symbolsCount = 10)
    (hc : config.cols = 3 ∨ config.cols = 4)
    (hr : 0 < config.rows) :
    ∃ g s2,
      buildFinalGrid config sg (pickOutcome config s0 (mkProbCtrl config)).1
          = some (g, s2) ∧
        evaluatePayline g (pickOutcome config s0 (mkProbCtrl config)).1.paylineRow
            config.cols
          = (pickOutcome config s0 (mkProbCtrl config)).1.winKind := by
  obtain ⟨hrow, h4⟩ := pickOutcome_inv config s0 (mkProbCtrl config) hr
  exact buildFinalGrid_ok config sg _ h10 hc hrow fun hw => hc.resolve_left (h4 hw)

/-- C1 witness: the 3×3 LOW-volatility configuration with outcome state 1 and
grid state 7. -/
theorem C1_grid_matches_outcome_witness :
    ∃ g s2,
      buildFinalGrid ⟨3, 3, 10, 95 / 100, .LOW⟩ 7
          (pickOutcome ⟨3, 3, 10, 95 / 100, .LOW⟩ 1
            (mkProbCtrl ⟨3, 3, 10, 95 / 100, .LOW⟩)).1 = some (g, s2) ∧
        evaluatePayline g
            (pickOutcome ⟨3, 3, 10, 95 / 100, .LOW⟩ 1
              (mkProbCtrl ⟨3, 3, 10, 95 / 100, .LOW⟩)).1.paylineRow 3
          = (pickOutcome ⟨3, 3, 10, 95 / 100, .LOW⟩ 1
              (mkProbCtrl ⟨3, 3, 10, 95 / 100, .LOW⟩)).1.winKind :=
  C1_grid_matches_outcome ⟨3, 3, 10, 95 / 100, .LOW⟩ 1 7 rfl (Or.inl rfl) (by norm_num)

/--
C2 counterexample: for the variant-A constant set
(dangerProb 0.15, conditional bonus probability 0.0196, bonus multiplier 2.0,
normal multiplier 1.1) the depth-invariance expression equals 0.949994, which
is 0.050006 away from 1 — far beyond floating tolerance, so the claimed
identity `expression ≈ 1` fails for this constant set.
-/
theorem C2_depth_identity_counterexample :
    depthIdentity BOMB_PROB VIRAL_BOOST_PROB_A VIRAL_BOOST_MULT_A MULT_PER_SWIPE
        = 949994 / 1000000 ∧
      1 / 25 <
        |depthIdentity BOMB_PROB VIRAL_BOOST_PROB_A VIRAL_BOOST_MULT_A MULT_PER_SWIPE - 1| := by
  constructor
  · norm_num [depthIdentity, BOMB_PROB, VIRAL_BOOST_PROB_A, VIRAL_BOOST_MULT_A, MULT_PER_SWIPE]
  · rw [abs_sub_comm]
    rw [abs_of_pos]
    · norm_num [depthIdentity, BOMB_PROB, VIRAL_BOOST_PROB_A, VIRAL_BOOST_MULT_A, MULT_PER_SWIPE]
    · norm_num [depthIdentity, BOMB_PROB, VIRAL_BOOST_PROB_A, VIRAL_BOOST_MULT_A, MULT_PER_SWIPE]

/--
C2 (amended): the depth-invariance identity
`(1 − dangerProb) × (q × bonusMult + (1 − q) × normalMult) ≈ 1` holds within
floating tolerance (10⁻⁴) only for the variant-B constant set
(0.15, 0.003, 10.0, 1.1499); for the variant-A constant set
(0.15, 0.0196, 2.0, 1.1) the expression instead equals the target RTP 0.95
within the same tolerance, because that variant applies no house-edge factor
at round start and folds the edge into the probability model.
-/
theorem C2_depth_identity_amended :
    |depthIdentity BOMB_PROB VIRAL_BOOST_PROB_B VIRAL_BOOST_MULT_B NORMAL_SAFE_MULT - 1|
        < 1 / 10000 ∧
      |depthIdentity BOMB_PROB VIRAL_BOOST_PROB_A VIRAL_BOOST_MULT_A MULT_PER_SWIPE - 95 / 100|
        < 1 / 10000 := by
  constructor
  · rw [abs_sub_comm, abs_of_pos] <;>
      norm_num [depthIdentity, BOMB_PROB, VIRAL_BOOST_PROB_B, VIRAL_BOOST_MULT_B,
        NORMAL_SAFE_MULT]
  · rw [abs_sub_comm, abs_of_pos] <;>
      norm_num [depthIdentity, BOMB_PROB, VIRAL_BOOST_PROB_A, VIRAL_BOOST_MULT_A,
        MULT_PER_SWIPE]

/--
C7: a second `cashout()` immediately after a `cashout()` returns 0 and leaves
the balance unchanged — the ledger `roundValue` is reset to 0 by the first
cash-out, so no double payout is possible.
-/
theorem C7_no_double_cashout (e : Economy) :
    ((e.cashout.2).cashout).1 = 0 ∧
      ((e.cashout.2).cashout).2.balance = (e.cashout.2).balance := by
  simp [Economy.cashout]

/--
C8: the random source is deterministic in its seed — two instances of either
Rng variant constructed from the same seed produce identical sequences of
`next()` values for every length N.
-/
theorem C8_seed_determinism (seed : Int) (n : ℕ) (r1 r2 m1 m2 : Nat)
    (h1 : r1 = mainRngInit seed) (h2 : r2 = mainRngInit seed)
    (g1 : m1 = mathRngInit seed) (g2 : m2 = mathRngInit seed) :
    mainDrawSeq r1 n = mainDrawSeq r2 n ∧ mathDrawSeq m1 n = mathDrawSeq m2 n := by
  subst h1; subst h2; subst g1; subst g2
  exact ⟨rfl, rfl⟩

/-- C8 witness: both generator variants at seed 42 and N = 3. -/
theorem C8_seed_determinism_witness :
    mainDrawSeq (mainRngInit 42) 3 = mainDrawSeq (mainRngInit 42) 3 ∧
      mathDrawSeq (mathRngInit 42) 3 = mathDrawSeq (mathRngInit 42) 3 :=
  C8_seed_determinism 42 3 _ _ _ _ rfl rfl rfl rfl

/--
C9 counterexample: the math-variant constructor (`src/math/Rng.ts`,
`this.state = (seed | 0) >>> 0`) maps seed 0 to internal state 0 — it performs
no non-zero coercion, so the claim that every Rng constructor in the core
yields a non-zero generator state is false at seed 0.
-/
theorem C9_zero_seed_counterexample : mathRngInit 0 = 0 := by
  simp [mathRngInit]

/--
C9 (amended): for every integer seed (including 0 and negative values) both
constructors produce an unsigned 32-bit state and never error; the main
constructor (`src/Rng.ts`) additionally coerces a zero result to 1 and is
therefore always non-zero, while the math-variant constructor only reduces
the seed modulo 2^32 and maps seed 0 to state 0.
-/
theorem C9_seed_coercion_amended (seed : Int) :
    0 < mainRngInit seed ∧ mainRngInit seed < U32 ∧ mathRngInit seed < U32 := by
  have hpos : (0 : Int) < (U32 : Int) := by norm_num [U32]
  have hlt : seed % (U32 : Int) < (U32 : Int) := Int.emod_lt_of_pos seed hpos
  have hmod : (seed % (U32 : Int)).toNat < U32 := by
    omega
  refine ⟨?_, ?_, hmod⟩
  · simp only [mainRngInit]
    split
    · norm_num
    · omega
  · simp only [mainRngInit]
    split
    · norm_num [U32]
    · exact hmod

/--
C10: `startRound()` deducts the full bet unconditionally (it never consults
`canStartRound`), so from any state with `balance < bet` the balance goes
strictly negative; the same holds for the swipe-variant economy with its
fixed `SWIPE_COST`.
-/
theorem C10_unconditional_deduction (e : Economy) (e2 : EconomySwipe) :
    e.startRound.balance = e.balance - e.bet ∧
      (e.balance < e.bet → e.startRound.balance < 0) ∧
      e2.startRound.balance = e2.balance - SWIPE_COST ∧
      (e2.balance < SWIPE_COST → e2.startRound.balance < 0) := by
  refine ⟨rfl, ?_, rfl, ?_⟩
  · intro h
    simp only [Economy.startRound]
    linarith
  · intro h
    simp only [EconomySwipe.startRound]
    linarith

/--
C3: the ladder survival table satisfies its construction identity:
`SURVIVAL_PROBS[1] = RTP_TARGET / CASHOUT_MULTIPLIERS[2] = 0.95`, and for
every level `2 ≤ k ≤ 21`,
`SURVIVAL_PROBS[k] × CASHOUT_MULTIPLIERS[k+1] = CASHOUT_MULTIPLIERS[k]`
(exactly, in exact rational arithmetic).
-/
theorem C3_ladder_construction_identity :
    SURVIVAL_PROBS.getD 1 0 = RTP_TARGET / CASHOUT_MULTIPLIERS.getD 2 0 ∧
      SURVIVAL_PROBS.getD 1 0 = 95 / 100 ∧
      ∀ k : ℕ, 2 ≤ k → k ≤ 21 →
        SURVIVAL_PROBS.getD k 0 * CASHOUT_MULTIPLIERS.getD (k + 1) 0
          = CASHOUT_MULTIPLIERS.getD k 0 := by
  refine ⟨?_, ?_, ?_⟩
  · rw [SURVIVAL_PROBS, getD_range_map _ _ _ (by norm_num [MAX_LEVEL])]
    norm_num
  · rw [SURVIVAL_PROBS, getD_range_map _ _ _ (by norm_num [MAX_LEVEL])]
    norm_num [CASHOUT_MULTIPLIERS, RTP_TARGET]
  · intro k h2 h21
    have hk : k < MAX_LEVEL + 1 := by simp only [MAX_LEVEL]; omega
    rw [SURVIVAL_PROBS, getD_range_map _ _ _ hk]
    have h1 : ¬ k = 1 := by omega
    have h2' : 2 ≤ k ∧ k ≤ MAX_LEVEL - 1 := by simp only [MAX_LEVEL]; omega
    rw [if_neg h1, if_pos h2']
    have hnz : CASHOUT_MULTIPLIERS.getD (k + 1) 0 ≠ 0 := by
      have h3 : 3 ≤ k + 1 := by omega
      have h22 : k + 1 ≤ 22 := by omega
      interval_cases k <;> norm_num [CASHOUT_MULTIPLIERS]
    exact div_mul_cancel₀ _ hnz

/-- C3 witness: the identity instantiated at level k = 5. -/
theorem C3_ladder_construction_identity_witness :
    SURVIVAL_PROBS.getD 5 0 * CASHOUT_MULTIPLIERS.getD 6 0
      = CASHOUT_MULTIPLIERS.getD 5 0 :=
  C3_ladder_construction_identity.2.2 5 (by norm_num) (by norm_num)

/--
C4: for every volatility tier and every `SlotConfig` with `targetRtp = 0.95`,
the normalized tier multipliers of the `ProbabilityController` satisfy
`pWin × (Σᵢ tierWeights[i] × normalizedMults[i] / totalWeight) = targetRtp`
exactly in rational arithmetic.
-/
theorem C4_rtp_normalization (config : SlotConfig) (h : config.targetRtp = 95 / 100) :
    (mkProbCtrl config).pWin *
      ((((mkProbCtrl config).weights.zip (mkProbCtrl config).normalizedMults).map
          fun p => p.1 * p.2).sum / (mkProbCtrl config).weights.sum) = 95 / 100 := by
  rcases config with ⟨rows, cols, sc, rtp, v⟩
  simp only at h
  subst h
  cases v <;> norm_num [mkProbCtrl, BASE_PROFILES]

/-- C4 witness: the MED volatility profile on a 4×4 configuration. -/
theorem C4_rtp_normalization_witness :
    (mkProbCtrl ⟨4, 4, 10, 95 / 100, .MED⟩).pWin *
      ((((mkProbCtrl ⟨4, 4, 10, 95 / 100, .MED⟩).weights.zip
            (mkProbCtrl ⟨4, 4, 10, 95 / 100, .MED⟩).normalizedMults).map
          fun p => p.1 * p.2).sum /
        (mkProbCtrl ⟨4, 4, 10, 95 / 100, .MED⟩).weights.sum) = 95 / 100 :=
  C4_rtp_normalization ⟨4, 4, 10, 95 / 100, .MED⟩ rfl

/--
C5: with bet 100, `startRound()` then three default `onSafeCard()` calls then
`cashout()` returns and credits exactly `100 × HOUSE_EDGE × NORMAL_SAFE_MULT³`
(the cap `bet × MAX_MULT` is not reached, so the clamp is inactive), and a
terminal `onBomb()` after any sequence of favorable steps credits nothing:
the balance stays at its post-deduction value and the round value is zeroed.
-/
theorem C5_round_economy (e : Economy) (hb : e.bet = 100) :
    (((e.startRound.onSafeCard none).onSafeCard none).onSafeCard none).cashout.1
        = 100 * HOUSE_EDGE * NORMAL_SAFE_MULT ^ 3 ∧
      100 * HOUSE_EDGE * NORMAL_SAFE_MULT ^ 3 ≤ 100 * MAX_MULT ∧
      (((e.startRound.onSafeCard none).onSafeCard none).onSafeCard none).cashout.2.balance
        = e.balance - 100 + 100 * HOUSE_EDGE * NORMAL_SAFE_MULT ^ 3 ∧
      ∀ steps : List (Option ℚ),
        ((steps.foldl (fun a m => a.onSafeCard m) e.startRound).onBomb).roundValue = 0 ∧
          ((steps.foldl (fun a m => a.onSafeCard m) e.startRound).onBomb).balance
            = e.balance - 100 := by
  refine ⟨?_, ?_, ?_, ?_⟩
  · norm_num [Economy.startRound, Economy.onSafeCard, Economy.cashout, hb,
      HOUSE_EDGE, NORMAL_SAFE_MULT, MAX_MULT, min_def]
  · norm_num [HOUSE_EDGE, NORMAL_SAFE_MULT, MAX_MULT]
  · norm_num [Economy.startRound, Economy.onSafeCard, Economy.cashout, hb,
      HOUSE_EDGE, NORMAL_SAFE_MULT, MAX_MULT, min_def]
  · intro steps
    constructor
    · simp [Economy.onBomb]
    · simp only [Economy.onBomb]
      rw [foldl_onSafeCard_balance]
      simp [Economy.startRound, hb]

/-- C5 witness: the concrete economy with balance 1000 and bet 100, with the
bomb branch instantiated at two default safe steps. -/
theorem C5_round_economy_witness :
    ((((Economy.startRound ⟨1000, 0, 0, 100⟩).onSafeCard none).onSafeCard
          none).onSafeCard none).cashout.1
        = 100 * HOUSE_EDGE * NORMAL_SAFE_MULT ^ 3 ∧
      (([none, none].foldl (fun a m => a.onSafeCard m)
            (Economy.startRound ⟨1000, 0, 0, 100⟩)).onBomb).balance = 1000 - 100 :=
  ⟨(C5_round_economy ⟨1000, 0, 0, 100⟩ rfl).1,
   ((C5_round_economy ⟨1000, 0, 0, 100⟩ rfl).2.2.2 [none, none]).2⟩

/-- Peeling one draw off the front of the state iteration. -/
lemma stateAfter_succ (s : Nat) (i : ℕ) :
    stateAfter s (i + 1) = stateAfter (mainNext s).2 i := by
  rw [stateAfter, stateAfter, Function.iterate_succ_apply]

/-- `drawAt` shifts by one when the first draw is consumed. -/
lemma drawAt_succ (s : Nat) (i : ℕ) : drawAt s (i + 1) = drawAt (mainNext s).2 i := by
  rw [drawAt, drawAt, stateAfter_succ]

/-- The 0-th draw is the immediate output. -/
lemma drawAt_zero (s : Nat) : drawAt s 0 = ((mainNext s).1 : ℚ) / (U32 : ℚ) := rfl

/--
Characterization of the pre-sampler loop: starting at `level` with `fuel`
levels left, it returns `some k` exactly for the first level in
`[level, level + fuel)` whose survival draw fails, and `none` exactly when
every draw in that window succeeds.
-/
lemma sampleGo_spec (fuel : ℕ) : ∀ s level,
    (∀ k, sampleGo s level fuel = some k →
        level ≤ k ∧ k < level + fuel ∧ ¬ drawAt s (k - level) < survivalProb k ∧
          ∀ j, level ≤ j → j < k → drawAt s (j - level) < survivalProb j) ∧
      (sampleGo s level fuel = none →
        ∀ j, level ≤ j → j < level + fuel → drawAt s (j - level) < survivalProb j) := by
  induction fuel with
  | zero =>
    intro s level
    constructor
    · intro k hk
      exact absurd hk (by rw [sampleGo]; exact Option.noConfusion)
    · intro _ j hj1 hj2
      omega
  | succ n ih =>
    intro s level
    by_cases h : ((mainNext s).1 : ℚ) / (U32 : ℚ) < survivalProb level
    · have hstep : sampleGo s level (n + 1) = sampleGo (mainNext s).2 (level + 1) n := by
        rw [sampleGo, if_pos h]
      constructor
      · intro k hk
        rw [hstep] at hk
        obtain ⟨h1, h2, h3, h4⟩ := (ih (mainNext s).2 (level + 1)).1 k hk
        refine ⟨by omega, by omega, ?_, ?_⟩
        · have heq : k - level = (k - (level + 1)) + 1 := by omega
          rw [heq, drawAt_succ]
          exact h3
        · intro j hj1 hj2
          rcases eq_or_lt_of_le hj1 with rfl | hlt
          · rw [Nat.sub_self, drawAt_zero]
            exact h
          · have heq : j - level = (j - (level + 1)) + 1 := by omega
            rw [heq, drawAt_succ]
            exact h4 j (by omega) hj2
      · intro hk j hj1 hj2
        rw [hstep] at hk
        rcases eq_or_lt_of_le hj1 with rfl | hlt
        · rw [Nat.sub_self, drawAt_zero]
          exact h
        · have heq : j - level = (j - (level + 1)) + 1 := by omega
          rw [heq, drawAt_succ]
          exact (ih (mainNext s).2 (level + 1)).2 hk j (by omega) (by omega)
    · have hstep : sampleGo s level (n + 1) = some level := by
        rw [sampleGo, if_neg h]
      constructor
      · intro k hk
        rw [hstep] at hk
        injection hk with hk
        subst hk
        refine ⟨le_refl _, by omega, ?_, ?_⟩
        · rw [Nat.sub_self, drawAt_zero]
          exact h
        · intro j hj1 hj2
          omega
      · intro hk
        rw [hstep] at hk
        cases hk

/--
C6: for every generator state, `sampleFailAtLike` either returns a level `k`
with `1 ≤ k ≤ 21` — the first level, scanning 1, 2, …, 21 in order with
exactly one survival draw per level (the `i`-th level consumes the `i`-th
draw), at which the draw fails (`¬ draw < SURVIVAL_PROBS[k]`) while every
earlier level's draw succeeded — or `none` (the source's `Infinity`) exactly
when all 21 draws succeed.
-/
theorem C6_fail_presampler (s : Nat) :
    (∀ k, sampleFailAtLike s = some k →
        1 ≤ k ∧ k ≤ 21 ∧ ¬ drawAt s (k - 1) < survivalProb k ∧
          ∀ j, 1 ≤ j → j < k → drawAt s (j - 1) < survivalProb j) ∧
      (sampleFailAtLike s = none →
        ∀ j, 1 ≤ j → j ≤ 21 → drawAt s (j - 1) < survivalProb j) := by
  constructor
  · intro k hk
    have hk' : sampleGo s 1 21 = some k := hk
    obtain ⟨h1, h2, h3, h4⟩ := (sampleGo_spec 21 s 1).1 k hk'
    exact ⟨h1, by omega, h3, h4⟩
  · intro hk j hj1 hj2
    have hk' : sampleGo s 1 21 = none := hk
    exact (sampleGo_spec 21 s 1).2 hk' j hj1 (by omega)

/-- C6 witness: the characterization instantiated at the concrete seed state 42. -/
theorem C6_fail_presampler_witness :
    (∀ k, sampleFailAtLike 42 = some k →
        1 ≤ k ∧ k ≤ 21 ∧ ¬ drawAt 42 (k - 1) < survivalProb k ∧
          ∀ j, 1 ≤ j → j < k → drawAt 42 (j - 1) < survivalProb j) ∧
      (sampleFailAtLike 42 = none →
        ∀ j, 1 ≤ j → j ≤ 21 → drawAt 42 (j - 1) < survivalProb j) :=
  C6_fail_presampler 42

/-- C10 witness: balance 50 with bet 100 (main) and balance 5 (swipe variant)
both go strictly negative. -/
theorem C10_unconditional_deduction_witness :
    (Economy.startRound ⟨50, 0, 0, 100⟩).balance = 50 - 100 ∧
      ((50 : ℚ) < 100 → (Economy.startRound ⟨50, 0, 0, 100⟩).balance < 0) ∧
      (EconomySwipe.startRound ⟨5, 0, 0⟩).balance = 5 - SWIPE_COST ∧
      ((5 : ℚ) < SWIPE_COST → (EconomySwipe.startRound ⟨5, 0, 0⟩).balance < 0) :=
  C10_unconditional_deduction ⟨50, 0, 0, 100⟩ ⟨5, 0, 0⟩

end SDV
